import Mathlib

/-!
Verification development for `scripts/pdf_export.py` of the
arxiv-latest-summary skill: a markdown-to-HTML/PDF exporter.

The Python code is shallowly embedded over `List Char` (Python `str`),
with lines represented as `List Char` after `str.splitlines()`.
Recursive scanners that may jump forward by more than one character per
step take an explicit fuel argument; top-level wrappers pass the input
length as fuel, which is always sufficient because every step consumes
at least one character (the fuel-exhausted branch returns the remaining
input unchanged and is unreachable from the wrappers).
Operations that can raise in Python (list indexing) are modelled with
`Except String`, so "never raises" is a provable statement.
-/

/-- The backtick character (written via its code point to keep the file
free of backtick tokens outside strings). -/
def cBacktick : Char := Char.ofNat 96

/-- The double-quote character. -/
def cQuote : Char := Char.ofNat 34

/-- The single-quote character. -/
def cApos : Char := Char.ofNat 39

/-- The newline character. -/
def cLf : Char := Char.ofNat 10

/-- Python `str.strip()` whitespace set: space, tab, newline, carriage
return, vertical tab, form feed. -/
def isPyWs (c : Char) : Bool :=
  c == ' ' || c == '\t' || c == cLf || c == '\r' ||
  c == Char.ofNat 11 || c == Char.ofNat 12

/-- Python `str.strip()`: drop leading and trailing whitespace. -/
def pstrip (l : List Char) : List Char :=
  ((l.dropWhile isPyWs).reverse.dropWhile isPyWs).reverse

/-- Python `str.strip(ch)` for a single character: drop that character
from both ends. -/
def stripCharL (t : Char) (l : List Char) : List Char :=
  ((l.dropWhile (· == t)).reverse.dropWhile (· == t)).reverse

/-- Python `str.lstrip(ch)` for a single character. -/
def lstripCharL (t : Char) (l : List Char) : List Char :=
  l.dropWhile (· == t)

/-- Helper for `splitlinesL`: accumulate the current line (reversed). -/
def splitlinesGo (cur : List Char) : List Char → List (List Char)
  | [] => if cur.isEmpty then [] else [cur.reverse]
  | c :: rest =>
    if c == cLf then cur.reverse :: splitlinesGo [] rest
    else splitlinesGo (c :: cur) rest

/-- Python `str.splitlines()` (restricted to the `\n` line break used by
this program): no trailing empty line for input ending in a newline, and
the empty string yields no lines. -/
def splitlinesL (l : List Char) : List (List Char) :=
  splitlinesGo [] l

/-- Helper for `splitCharL`. -/
def splitCharGo (sep : Char) (cur : List Char) : List Char → List (List Char)
  | [] => [cur.reverse]
  | c :: rest =>
    if c == sep then cur.reverse :: splitCharGo sep [] rest
    else splitCharGo sep (c :: cur) rest

/-- Python `str.split(sep)` for a one-character separator: always yields
at least one piece (the empty string splits to `[""]`). -/
def splitCharL (sep : Char) (l : List Char) : List (List Char) :=
  splitCharGo sep [] l

/-- Python `sep.join(pieces)`: the pieces interleaved with the
separator (no trailing separator). -/
def joinWith (sep : List Char) : List (List Char) → List Char
  | [] => []
  | [x] => x
  | x :: y :: xs => x ++ sep ++ joinWith sep (y :: xs)

/-- Python `pat in s` (substring test), defined by scanning all suffixes. -/
def containsSub (pat : List Char) : List Char → Bool
  | [] => pat.isEmpty
  | c :: rest => pat.isPrefixOf (c :: rest) || containsSub pat rest

/-- Fueled worker for `replaceAll`. -/
def replaceAllGo (pat rep : List Char) : Nat → List Char → List Char
  | 0, l => l
  | _ + 1, [] => []
  | fuel + 1, c :: rest =>
    if pat.isPrefixOf (c :: rest) && !pat.isEmpty then
      rep ++ replaceAllGo pat rep fuel ((c :: rest).drop pat.length)
    else
      c :: replaceAllGo pat rep fuel rest

/-- Python `str.replace(pat, rep)`: replace every non-overlapping
occurrence, scanning left to right. -/
def replaceAll (pat rep l : List Char) : List Char :=
  replaceAllGo pat rep l.length l

/-- Fueled worker for `countOcc`. -/
def countOccGo (pat : List Char) : Nat → List Char → Nat
  | 0, _ => 0
  | _ + 1, [] => 0
  | fuel + 1, c :: rest =>
    if pat.isPrefixOf (c :: rest) && !pat.isEmpty then
      1 + countOccGo pat fuel ((c :: rest).drop pat.length)
    else
      countOccGo pat fuel rest

/-- Python `str.count(pat)`: non-overlapping occurrence count, same
left-to-right scan as `str.replace`. -/
def countOcc (pat l : List Char) : Nat :=
  countOccGo pat l.length l

/-- One character of Python `html.escape(text, quote=True)`.  The Python
implementation runs five sequential `str.replace` calls starting with
`&`, which is equivalent to this per-character expansion because no
replacement string contains a character replaced by a later pass. -/
def html_escape_char (c : Char) : List Char :=
  if c == '&' then "&amp;".data
  else if c == '<' then "&lt;".data
  else if c == '>' then "&gt;".data
  else if c == cQuote then "&quot;".data
  else if c == cApos then "&#x27;".data
  else [c]

/-- Python `html.escape(text, quote=True)`. -/
def html_escape (l : List Char) : List Char :=
  l.flatMap html_escape_char

/-- Fueled worker for `html_unescape`. -/
def htmlUnescapeGo : Nat → List Char → List Char
  | 0, l => l
  | _ + 1, [] => []
  | fuel + 1, c :: rest =>
    if c == '&' then
      if "amp;".data.isPrefixOf rest then '&' :: htmlUnescapeGo fuel (rest.drop 4)
      else if "lt;".data.isPrefixOf rest then '<' :: htmlUnescapeGo fuel (rest.drop 3)
      else if "gt;".data.isPrefixOf rest then '>' :: htmlUnescapeGo fuel (rest.drop 3)
      else if "quot;".data.isPrefixOf rest then cQuote :: htmlUnescapeGo fuel (rest.drop 5)
      else if "#x27;".data.isPrefixOf rest then cApos :: htmlUnescapeGo fuel (rest.drop 5)
      else c :: htmlUnescapeGo fuel rest
    else c :: htmlUnescapeGo fuel rest

/-- Modelled from the spec boundary: Python `html.unescape`, restricted
to the five entities that `html.escape` produces (the only entities a
link URL can contain at its call site, since it is applied to text that
just went through `html.escape`). -/
def html_unescape (l : List Char) : List Char :=
  htmlUnescapeGo l.length l

/-- Attempted match of `MD_LINK_RE` (regex
`\[([^\]]+)\]\((https?://[^\s)]+)\)`) immediately after an opening `[`:
returns the label, the URL (scheme included) and the remaining input
after the closing parenthesis. -/
def tryLink (rest : List Char) : Option (List Char × List Char × List Char) :=
  let label := rest.takeWhile (fun x => !(x == ']'))
  if label.isEmpty then none
  else
    match rest.dropWhile (fun x => !(x == ']')) with
    | ']' :: '(' :: r2 =>
      let scheme :=
        if "https://".data.isPrefixOf r2 then "https://".data
        else if "http://".data.isPrefixOf r2 then "http://".data
        else []
      if scheme.isEmpty then none
      else
        let r3 := r2.drop scheme.length
        let urlRest := r3.takeWhile (fun x => !(isPyWs x) && !(x == ')'))
        match r3.dropWhile (fun x => !(isPyWs x) && !(x == ')')) with
        | ')' :: tail =>
          if urlRest.isEmpty then none
          else some (label, scheme ++ urlRest, tail)
        | _ => none
    | _ => none

/-- Fueled worker for the `MD_LINK_RE.sub` call: on failure to match at
an opening bracket, the regex engine advances one character. -/
def subLinkGo (mk : List Char → List Char → List Char) :
    Nat → List Char → List Char
  | 0, l => l
  | _ + 1, [] => []
  | fuel + 1, c :: rest =>
    if c == '[' then
      match tryLink rest with
      | some (label, url, tail) => mk label url ++ subLinkGo mk fuel tail
      | none => c :: subLinkGo mk fuel rest
    else c :: subLinkGo mk fuel rest

/-- `MD_LINK_RE.sub` with a target-specific replacement builder. -/
def subLink (mk : List Char → List Char → List Char) (l : List Char) :
    List Char :=
  subLinkGo mk l.length l

/-- Fueled worker for `MD_CODE_RE.sub` (regex pattern of a backtick,
then one or more non-backtick characters, then a backtick). -/
def subCodeGo (pre post : List Char) : Nat → List Char → List Char
  | 0, l => l
  | _ + 1, [] => []
  | fuel + 1, c :: rest =>
    if c == cBacktick then
      let content := rest.takeWhile (fun x => !(x == cBacktick))
      match rest.dropWhile (fun x => !(x == cBacktick)) with
      | _ :: tail =>
        if content.isEmpty then c :: subCodeGo pre post fuel rest
        else pre ++ content ++ post ++ subCodeGo pre post fuel tail
      | [] => c :: subCodeGo pre post fuel rest
    else c :: subCodeGo pre post fuel rest

/-- `MD_CODE_RE.sub`, wrapping matched spans in `pre`/`post`. -/
def subCode (pre post l : List Char) : List Char :=
  subCodeGo pre post l.length l

/-- Fueled worker for `MD_BOLD_RE.sub` (regex `\*\*([^*]+)\*\*`). -/
def subBoldGo (pre post : List Char) : Nat → List Char → List Char
  | 0, l => l
  | _ + 1, [] => []
  | fuel + 1, c :: rest =>
    if c == '*' && rest.head? == some '*' then
      let rest2 := rest.tail
      let content := rest2.takeWhile (fun x => !(x == '*'))
      match rest2.dropWhile (fun x => !(x == '*')) with
      | _ :: s2 :: tail =>
        if content.isEmpty || !(s2 == '*') then c :: subBoldGo pre post fuel rest
        else pre ++ content ++ post ++ subBoldGo pre post fuel tail
      | _ => c :: subBoldGo pre post fuel rest
    else c :: subBoldGo pre post fuel rest

/-- `MD_BOLD_RE.sub`, wrapping matched spans in `pre`/`post`. -/
def subBold (pre post l : List Char) : List Char :=
  subBoldGo pre post l.length l

/-- Fueled worker for `MD_ITALIC_RE.sub` (regex
`(?<!\*)\*([^*\n]+)\*(?!\*)`).  The Boolean argument tracks whether the
character before the current position in the original string is `*`
(the negative lookbehind); the lookahead is checked on the character
after the closing `*`. -/
def subItalicGo (pre post : List Char) : Nat → Bool → List Char → List Char
  | 0, _, l => l
  | _ + 1, _, [] => []
  | fuel + 1, prevStar, c :: rest =>
    if c == '*' && !prevStar then
      let content := rest.takeWhile (fun x => !(x == '*') && !(x == cLf))
      match rest.dropWhile (fun x => !(x == '*') && !(x == cLf)) with
      | s1 :: tail =>
        if content.isEmpty || !(s1 == '*') || tail.head? == some '*' then
          c :: subItalicGo pre post fuel true rest
        else pre ++ content ++ post ++ subItalicGo pre post fuel true tail
      | [] => c :: subItalicGo pre post fuel true rest
    else c :: subItalicGo pre post fuel (c == '*') rest

/-- `MD_ITALIC_RE.sub`, wrapping matched spans in `pre`/`post`. -/
def subItalic (pre post l : List Char) : List Char :=
  subItalicGo pre post l.length false l

/-- Replacement builder of `_inline_markdown_to_html`: the URL is
`html.escape(html.unescape(group 2))`, the label is inserted as-is. -/
def mkLinkHtml (label url : List Char) : List Char :=
  "<a href=".data ++ [cQuote] ++ html_escape (html_unescape url) ++ [cQuote] ++
    " target=".data ++ [cQuote] ++ "_blank".data ++ [cQuote] ++
    " rel=".data ++ [cQuote] ++ "noopener noreferrer".data ++ [cQuote] ++
    ">".data ++ label ++ "</a>".data

/-- `_inline_markdown_to_html`: escape, then links, code spans, bold,
italic, each pass running on the previous pass's output. -/
def inline_markdown_to_html (l : List Char) : List Char :=
  subItalic "<em>".data "</em>".data
    (subBold "<strong>".data "</strong>".data
      (subCode "<code>".data "</code>".data
        (subLink mkLinkHtml (html_escape l))))

/-- Replacement builder of `_inline_markdown_to_reportlab`. -/
def mkLinkRl (label url : List Char) : List Char :=
  "<a href=".data ++ [cQuote] ++ html_escape (html_unescape url) ++ [cQuote] ++
    "><u>".data ++ label ++ "</u></a>".data

/-- `_inline_markdown_to_reportlab`: same pipeline with print markup. -/
def inline_markdown_to_reportlab (l : List Char) : List Char :=
  subItalic "<i>".data "</i>".data
    (subBold "<b>".data "</b>".data
      (subCode ("<font name=".data ++ [cApos] ++ "Courier".data ++ [cApos] ++ ">".data)
        "</font>".data
        (subLink mkLinkRl (html_escape l))))

example : inline_markdown_to_html "**b**".data = "<strong>b</strong>".data := by decide
example : inline_markdown_to_html "a `x` *i*".data =
    "a <code>x</code> <em>i</em>".data := by decide
example : inline_markdown_to_html "<x>".data = "&lt;x&gt;".data := by decide

/-- `_split_table_row`: strip whitespace, strip outer pipes, split on
the pipe character, strip each cell. -/
def split_table_row (line : List Char) : List (List Char) :=
  (splitCharL '|' (stripCharL '|' (pstrip line))).map pstrip

/-- `_is_table_separator`: the stripped line starts with a pipe and its
core (outer pipes stripped, spaces removed) is nonempty and made only of
`-` and `:`.  Python removes spaces with `.replace(" ", "")`, so tabs
are not removed. -/
def is_table_separator (line : List Char) : Bool :=
  let stripped := pstrip line
  if !("|".data.isPrefixOf stripped) then false
  else
    let core := (stripCharL '|' stripped).filter (fun c => !(c == ' '))
    !core.isEmpty && core.all (fun c => c == '-' || c == ':')

/-- Whether the stripped form of a line starts with a pipe. -/
def startsPipe (l : List Char) : Bool :=
  "|".data.isPrefixOf (pstrip l)

/-- `_looks_like_table` at the head of the remaining lines: the current
stripped line starts with a pipe and the next stripped line is a valid
separator row. -/
def looks_like_table : List (List Char) → Bool
  | l0 :: l1 :: _ =>
    startsPipe l0 && startsPipe l1 && is_table_separator (pstrip l1)
  | _ => false

/-- Full match of the heading regex `^(#{1,6})\s+(.+)$` on a stripped
line: one to six leading `#`, at least one whitespace, then text; a run
of seven or more `#` never matches because the character after at most
six `#` must be whitespace.  Returns the `#` count and group 2 (the text
after the greedy whitespace run). -/
def headingParse (s : List Char) : Option (Nat × List Char) :=
  let n := (s.takeWhile (· == '#')).length
  let rest := s.dropWhile (· == '#')
  if 1 ≤ n ∧ n ≤ 6 then
    match rest.head? with
    | some c =>
      if isPyWs c then
        let txt := rest.dropWhile isPyWs
        if txt.isEmpty then none else some (n, txt)
      else none
    | none => none
  else none

/-- Anchored search of the heading start regex `^#{1,6}\s+` as used by
`_starts_special_line` (no text required after the whitespace). -/
def headingStarts (s : List Char) : Bool :=
  let n := (s.takeWhile (· == '#')).length
  decide (1 ≤ n) && decide (n ≤ 6) &&
    (match (s.dropWhile (· == '#')).head? with
     | some c => isPyWs c
     | none => false)

/-- Full match of `^[-*]\s+(.+)$` on a stripped line: returns group 1. -/
def ulParse (s : List Char) : Option (List Char) :=
  match s with
  | c :: rest =>
    if c == '-' || c == '*' then
      match rest.head? with
      | some c2 =>
        if isPyWs c2 then
          let txt := rest.dropWhile isPyWs
          if txt.isEmpty then none else some txt
        else none
      | none => none
    else none
  | [] => none

/-- Anchored search of `^[-*]\s+`. -/
def ulStarts (s : List Char) : Bool :=
  match s with
  | c :: rest =>
    (c == '-' || c == '*') &&
      (match rest.head? with
       | some c2 => isPyWs c2
       | none => false)
  | [] => false

/-- Full match of `^\d+\.\s+(.+)$` on a stripped line (digits modelled
as ASCII digits): returns group 1. -/
def olParse (s : List Char) : Option (List Char) :=
  let digits := s.takeWhile (·.isDigit)
  if digits.isEmpty then none
  else
    match s.dropWhile (·.isDigit) with
    | '.' :: r2 =>
      match r2.head? with
      | some c2 =>
        if isPyWs c2 then
          let txt := r2.dropWhile isPyWs
          if txt.isEmpty then none else some txt
        else none
      | none => none
    | _ => none

/-- Anchored search of `^\d+\.\s+`. -/
def olStarts (s : List Char) : Bool :=
  if (s.takeWhile (·.isDigit)).isEmpty then false
  else
    match s.dropWhile (·.isDigit) with
    | '.' :: r2 =>
      (match r2.head? with
       | some c2 => isPyWs c2
       | none => false)
    | _ => false

/-- The exact thematic-break test of the source: membership of the
stripped line in the literal set of the three-character strings. -/
def isHrLine (s : List Char) : Bool :=
  s == "---".data || s == "***".data || s == "___".data

/-- `_starts_special_line` on the remaining lines (Python receives the
whole list and an index; past-the-end means `True`). -/
def starts_special_line : List (List Char) → Bool
  | [] => true
  | l :: rest =>
    let stripped := pstrip l
    stripped.isEmpty ||
    "```".data.isPrefixOf stripped ||
    headingStarts stripped ||
    ulStarts stripped ||
    olStarts stripped ||
    ">".data.isPrefixOf stripped ||
    isHrLine stripped ||
    looks_like_table (l :: rest)

/-- Row normalization of both rendering paths:
`padded = row + [""] * (len(header) - len(row))` then
`padded[: len(header)]` (the Python multiplication of a list by a
negative number yields the empty list). -/
def normalizeRow (header row : List (List Char)) : List (List Char) :=
  (row ++ List.replicate (header.length - row.length) []).take header.length

/-- The `html_parts` elements one body row contributes in
`_render_table_html`. -/
def tableRowParts (header row : List (List Char)) : List (List Char) :=
  "<tr>".data ::
    ((normalizeRow header row).map
      (fun cell => "<td>".data ++ inline_markdown_to_html cell ++ "</td>".data)) ++
    ["</tr>".data]

/-- `_render_table_html` as the list of `html_parts` appends.  The two
list indexings of the source are modelled with `get?` and an
`Except`-failure, mirroring that Python would raise `IndexError` there;
the guard `len(table_lines) < 2` is evaluated first, as in the
short-circuiting source condition. -/
def render_table_html_parts (table_lines : List (List Char)) :
    Except String (List (List Char)) :=
  if table_lines.length < 2 then .ok []
  else
    match table_lines.get? 1 with
    | none => .error "list index out of range"
    | some sep =>
      if !(is_table_separator sep) then .ok []
      else
        match table_lines.get? 0 with
        | none => .error "list index out of range"
        | some hd =>
          let header := split_table_row hd
          let body_rows := (table_lines.drop 2).map split_table_row
          if header.isEmpty then .ok []
          else
            .ok (["<table>".data, "<thead>".data, "<tr>".data] ++
              header.map (fun cell =>
                "<th>".data ++ inline_markdown_to_html cell ++ "</th>".data) ++
              ["</tr>".data, "</thead>".data, "<tbody>".data] ++
              body_rows.flatMap (tableRowParts header) ++
              ["</tbody>".data, "</table>".data])

/-- `_render_table_html`: the parts joined with newlines (the empty
parts list yields the empty string, as the early returns do). -/
def render_table_html (table_lines : List (List Char)) :
    Except String (List Char) :=
  (render_table_html_parts table_lines).map (joinWith [cLf])

/-- The `list_mode` state of `_convert_markdown_fallback`. -/
inductive ListMode
  | ul
  | ol
deriving DecidableEq

/-- The lines `_close_list` appends for a given open list mode. -/
def closeListTag : Option ListMode → List (List Char)
  | some .ul => ["</ul>".data]
  | some .ol => ["</ol>".data]
  | none => []

/-- The paragraph-continuation loop shared by both renderers: collect
raw lines until `_starts_special_line` holds at the remaining input. -/
def collectPara : List (List Char) → List (List Char) × List (List Char)
  | [] => ([], [])
  | l :: rest =>
    if starts_special_line (l :: rest) then ([], l :: rest)
    else
      let p := collectPara rest
      (l :: p.1, p.2)

/-- Fueled worker for `_convert_markdown_fallback`: one unit of fuel per
loop iteration; every iteration consumes at least one line, so fuel
equal to the number of lines is always sufficient and the fuel-zero
branch is unreachable from the wrapper.  Produces the `html_lines` list
of the source. -/
def convertFallbackGo :
    Nat → List (List Char) → Option ListMode → Except String (List (List Char))
  | _, [], list_mode => .ok (closeListTag list_mode)
  | 0, _ :: _, _ => .ok []
  | fuel + 1, line :: rest, list_mode =>
    let stripped := pstrip line
    if stripped.isEmpty then
      (convertFallbackGo fuel rest none).map
        (fun out => closeListTag list_mode ++ out)
    else if "```".data.isPrefixOf stripped then
      let code_lines := rest.takeWhile (fun l => !("```".data.isPrefixOf (pstrip l)))
      let rest2 := rest.dropWhile (fun l => !("```".data.isPrefixOf (pstrip l)))
      let code := html_escape (joinWith [cLf] code_lines)
      (convertFallbackGo fuel rest2.tail none).map
        (fun out => closeListTag list_mode ++
          ["<pre><code>".data ++ code ++ "</code></pre>".data] ++ out)
    else if looks_like_table (line :: rest) then
      let table_lines := (line :: rest).takeWhile startsPipe
      let rest2 := (line :: rest).dropWhile startsPipe
      match render_table_html table_lines with
      | .error e => .error e
      | .ok table_html =>
        (convertFallbackGo fuel rest2 none).map
          (fun out => closeListTag list_mode ++
            (if table_html.isEmpty then [] else [table_html]) ++ out)
    else
      match headingParse stripped with
      | some nt =>
        let level := min nt.1 6
        let content := inline_markdown_to_html (pstrip nt.2)
        (convertFallbackGo fuel rest none).map
          (fun out => closeListTag list_mode ++
            ["<h".data ++ (Nat.repr level).data ++ ">".data ++ content ++
              "</h".data ++ (Nat.repr level).data ++ ">".data] ++ out)
      | none =>
        if isHrLine stripped then
          (convertFallbackGo fuel rest none).map
            (fun out => closeListTag list_mode ++ ["<hr/>".data] ++ out)
        else if ">".data.isPrefixOf stripped then
          let quote_lines := (line :: rest).takeWhile
            (fun l => ">".data.isPrefixOf (pstrip l))
          let rest2 := (line :: rest).dropWhile
            (fun l => ">".data.isPrefixOf (pstrip l))
          let quote_text := joinWith " ".data
            ((quote_lines.map (fun l => pstrip (lstripCharL '>' (pstrip l)))).filter
              (fun q => !q.isEmpty))
          (convertFallbackGo fuel rest2 none).map
            (fun out => closeListTag list_mode ++
              ["<blockquote><p>".data ++ inline_markdown_to_html quote_text ++
                "</p></blockquote>".data] ++ out)
        else
          match ulParse stripped with
          | some txt =>
            let openPart :=
              if list_mode ≠ some ListMode.ul then
                closeListTag list_mode ++ ["<ul>".data]
              else []
            (convertFallbackGo fuel rest (some ListMode.ul)).map
              (fun out => openPart ++
                ["<li>".data ++ inline_markdown_to_html (pstrip txt) ++ "</li>".data] ++
                out)
          | none =>
            match olParse stripped with
            | some txt =>
              let openPart :=
                if list_mode ≠ some ListMode.ol then
                  closeListTag list_mode ++ ["<ol>".data]
                else []
              (convertFallbackGo fuel rest (some ListMode.ol)).map
                (fun out => openPart ++
                  ["<li>".data ++ inline_markdown_to_html (pstrip txt) ++ "</li>".data] ++
                  out)
            | none =>
              let p := collectPara rest
              let para_parts := stripped ::
                (p.1.map pstrip).filter (fun x => !x.isEmpty)
              let paragraph := joinWith " ".data para_parts
              (convertFallbackGo fuel p.2 none).map
                (fun out => closeListTag list_mode ++
                  ["<p>".data ++ inline_markdown_to_html paragraph ++ "</p>".data] ++
                  out)

/-- `_convert_markdown_fallback` on pre-split lines: the `html_lines`
list built by the loop, with the trailing `_close_list()`. -/
def convert_markdown_fallback_lines (lines : List (List Char)) :
    Except String (List (List Char)) :=
  convertFallbackGo lines.length lines none

/-- `_convert_markdown_fallback`: split the input into lines, run the
loop, join the collected `html_lines` with newlines. -/
def convert_markdown_fallback (s : String) : Except String String :=
  (convert_markdown_fallback_lines (splitlinesL s.data)).map
    (fun html_lines => String.mk (joinWith [cLf] html_lines))

example : convert_markdown_fallback "# T" = .ok "<h1>T</h1>" := rfl
example : convert_markdown_fallback "" = .ok "" := rfl
example : convert_markdown_fallback "---" = .ok "<hr/>" := rfl
example : convert_markdown_fallback "----" = .ok "<p>----</p>" := rfl
example : convert_markdown_fallback "####### T" = .ok "<p>####### T</p>" := rfl
example : convert_markdown_fallback "- a\n- b" = .ok "<ul>\n<li>a</li>\n<li>b</li>\n</ul>" := rfl
example : is_table_separator "|---|---|".data = false := by decide
example : is_table_separator "| --- |".data = true := by decide
example : convert_markdown_fallback "| A | B |\n| --- |\n| 1 | 2 |" =
    .ok "<table>\n<thead>\n<tr>\n<th>A</th>\n<th>B</th>\n</tr>\n</thead>\n<tbody>\n<tr>\n<td>1</td>\n<td>2</td>\n</tr>\n</tbody>\n</table>" := rfl

/-- The paragraph styles `_pdf_with_reportlab` attaches to flow
elements. -/
inductive RlStyle
  | titleStyle
  | h2Style
  | h3Style
  | bodyStyle
  | quoteStyle
deriving DecidableEq

/-- The flow elements `_pdf_with_reportlab` appends to `story`.  A
`para` is a `Paragraph(text, style)`; `pre` is a `Preformatted` code
block (raw text, code style); `tableF` carries the `data` matrix of
cell texts (each cell a body-style `Paragraph` of the inline-formatted
cell); `listF` is a `ListFlowable` of body-style item paragraphs with
its bullet type; `spacer` is a `Spacer(w, h)`. -/
inductive Flowable
  | para (text : List Char) (style : RlStyle)
  | pre (text : List Char)
  | tableF (data : List (List (List Char)))
  | spacer (w h : Nat)
  | listF (items : List (List Char)) (bulletType : List Char)
deriving DecidableEq

/-- `_add_heading`: level 1 gets the title style, level 2 the H2 style,
every other level the H3 style. -/
def addHeading (level : Nat) (text : List Char) : Flowable :=
  if level = 1 then .para (inline_markdown_to_reportlab text) .titleStyle
  else if level = 2 then .para (inline_markdown_to_reportlab text) .h2Style
  else .para (inline_markdown_to_reportlab text) .h3Style

/-- The unordered-list collection loop of `_pdf_with_reportlab`:
consecutive lines whose stripped form matches the item regex; items are
the stripped group-1 texts. -/
def collectUl : List (List Char) → List (List Char) × List (List Char)
  | [] => ([], [])
  | l :: rest =>
    match ulParse (pstrip l) with
    | some txt =>
      let p := collectUl rest
      (pstrip txt :: p.1, p.2)
    | none => ([], l :: rest)

/-- The ordered-list collection loop of `_pdf_with_reportlab`. -/
def collectOl : List (List Char) → List (List Char) × List (List Char)
  | [] => ([], [])
  | l :: rest =>
    match olParse (pstrip l) with
    | some txt =>
      let p := collectOl rest
      (pstrip txt :: p.1, p.2)
    | none => ([], l :: rest)

/-- Fueled worker for the `story`-building loop of
`_pdf_with_reportlab` (fuel as in `convertFallbackGo`).  The unguarded
`table_lines[0]` indexing of the source is modelled with `get?` and an
`Except` failure. -/
def buildStoryGo : Nat → List (List Char) → Except String (List Flowable)
  | _, [] => .ok []
  | 0, _ :: _ => .ok []
  | fuel + 1, line :: rest =>
    let stripped := pstrip line
    if stripped.isEmpty then buildStoryGo fuel rest
    else if "```".data.isPrefixOf stripped then
      let code_lines := rest.takeWhile (fun l => !("```".data.isPrefixOf (pstrip l)))
      let rest2 := rest.dropWhile (fun l => !("```".data.isPrefixOf (pstrip l)))
      (buildStoryGo fuel rest2.tail).map
        (fun out => Flowable.pre (joinWith [cLf] code_lines) :: out)
    else if looks_like_table (line :: rest) then
      let table_lines := (line :: rest).takeWhile startsPipe
      let rest2 := (line :: rest).dropWhile startsPipe
      match table_lines.get? 0 with
      | none => .error "list index out of range"
      | some first =>
        let header := split_table_row first
        let body_rows := (table_lines.drop 2).map split_table_row
        (buildStoryGo fuel rest2).map
          (fun out =>
            if header.isEmpty then out
            else
              Flowable.tableF
                (header.map inline_markdown_to_reportlab ::
                  body_rows.map (fun row =>
                    (normalizeRow header row).map inline_markdown_to_reportlab)) ::
                Flowable.spacer 1 8 :: out)
    else
      match headingParse stripped with
      | some nt =>
        (buildStoryGo fuel rest).map
          (fun out => addHeading nt.1 (pstrip nt.2) :: out)
      | none =>
        if isHrLine stripped then
          (buildStoryGo fuel rest).map (fun out => Flowable.spacer 1 6 :: out)
        else if ">".data.isPrefixOf stripped then
          let quote_lines := (line :: rest).takeWhile
            (fun l => ">".data.isPrefixOf (pstrip l))
          let rest2 := (line :: rest).dropWhile
            (fun l => ">".data.isPrefixOf (pstrip l))
          let quote_text := joinWith " ".data
            ((quote_lines.map (fun l => pstrip (lstripCharL '>' (pstrip l)))).filter
              (fun q => !q.isEmpty))
          (buildStoryGo fuel rest2).map
            (fun out =>
              Flowable.para (inline_markdown_to_reportlab quote_text) .quoteStyle :: out)
        else
          match ulParse stripped with
          | some _ =>
            let p := collectUl (line :: rest)
            (buildStoryGo fuel p.2).map
              (fun out =>
                Flowable.listF (p.1.map inline_markdown_to_reportlab) "bullet".data ::
                  Flowable.spacer 1 4 :: out)
          | none =>
            match olParse stripped with
            | some _ =>
              let p := collectOl (line :: rest)
              (buildStoryGo fuel p.2).map
                (fun out =>
                  Flowable.listF (p.1.map inline_markdown_to_reportlab) "1".data ::
                    Flowable.spacer 1 4 :: out)
            | none =>
              let p := collectPara rest
              let para_parts := stripped ::
                (p.1.map pstrip).filter (fun x => !x.isEmpty)
              let paragraph := joinWith " ".data para_parts
              (buildStoryGo fuel p.2).map
                (fun out =>
                  Flowable.para (inline_markdown_to_reportlab paragraph) .bodyStyle :: out)

/-- The `story` handed to `doc.build` by `_pdf_with_reportlab`: the loop
result, or the single placeholder paragraph (raw text, body style) when
the loop produced no element. -/
def build_story (s : String) : Except String (List Flowable) :=
  let lines := splitlinesL s.data
  (buildStoryGo lines.length lines).map
    (fun story =>
      if story.isEmpty then [Flowable.para "No content available.".data .bodyStyle]
      else story)

example : build_story "" = .ok [Flowable.para "No content available.".data .bodyStyle] := rfl

/-- The four PDF backends `main` tries, in its fixed order. -/
inductive Backend
  | weasyprint
  | wkhtmltopdf
  | xhtml2pdf
  | reportlab
deriving DecidableEq

/-- The name of each backend as it appears in the program's output. -/
def backendName : Backend → String
  | .weasyprint => "weasyprint"
  | .wkhtmltopdf => "wkhtmltopdf"
  | .xhtml2pdf => "xhtml2pdf"
  | .reportlab => "reportlab"

/-- The fixed priority order of the backend chain in `main`. -/
def backendOrder : List Backend :=
  [.weasyprint, .wkhtmltopdf, .xhtml2pdf, .reportlab]

/-- The message of the terminal `SystemExit` raised when every backend
fails (source lines 613-616). -/
def failureMessage : String :=
  "Could not generate PDF. Install one of: weasyprint, wkhtmltopdf, xhtml2pdf, or reportlab. HTML output was generated successfully."

/-- The success message printed for each producing backend. -/
def successMessage (b : Backend) (pdfPath : String) : String :=
  match b with
  | .weasyprint => "PDF generated via weasyprint: " ++ pdfPath
  | .wkhtmltopdf => "PDF generated via wkhtmltopdf: " ++ pdfPath
  | .xhtml2pdf => "PDF generated via xhtml2pdf: " ++ pdfPath
  | .reportlab => "PDF generated via reportlab rich fallback: " ++ pdfPath

/-- Outcome of the PDF phase of `main`: either a producing backend with
exit code 0 and its printed message, or the terminal failure (a
`SystemExit` with a string message, which terminates with a non-zero
exit status). -/
inductive MainResult
  | success (producer : Backend) (exitCode : Nat) (message : String)
  | failure (message : String)
deriving DecidableEq

/-- Source lines 596-616 of `main`: each `_pdf_with_*` helper returns
`False` both when its backend's capability is absent (failed import or
missing binary) and when rendering errors, so one Boolean per backend
captures the chain's branching exactly. -/
def mainPdfPhase (render : Backend → Bool) (pdfPath : String) : MainResult :=
  if render .weasyprint then .success .weasyprint 0 (successMessage .weasyprint pdfPath)
  else if render .wkhtmltopdf then .success .wkhtmltopdf 0 (successMessage .wkhtmltopdf pdfPath)
  else if render .xhtml2pdf then .success .xhtml2pdf 0 (successMessage .xhtml2pdf pdfPath)
  else if render .reportlab then .success .reportlab 0 (successMessage .reportlab pdfPath)
  else .failure failureMessage

/-- Filesystem-visible events of `main` after the input has been read:
directory creation, file writes, file deletions (the event exists in the
alphabet so "never deleted" is expressible; `main` performs none), and
backend invocations. -/
inductive TraceEvent
  | mkdirParents (dir : String)
  | writeFile (path : String) (content : String)
  | deleteFile (path : String)
  | invokeBackend (b : Backend)
deriving DecidableEq

/-- Events of one backend attempt.  Every backend receives only
`pdf_path` as its output target (weasyprint and wkhtmltopdf read the
HTML file, xhtml2pdf receives the page string, reportlab the markdown
text), so a successful attempt writes the PDF path and a failed attempt
writes nothing lasting that the claims talk about. -/
def backendAttemptEvents (b : Backend) (ok : Bool) (pdfPath : String) :
    List TraceEvent :=
  TraceEvent.invokeBackend b ::
    (if ok then [TraceEvent.writeFile pdfPath ("pdf-artifact:" ++ backendName b)] else [])

/-- The backend chain's event trace: invoke in order, stop after the
first success. -/
def tryChainEvents (render : Backend → Bool) (pdfPath : String) :
    List Backend → List TraceEvent
  | [] => []
  | b :: bs =>
    if render b then backendAttemptEvents b true pdfPath
    else backendAttemptEvents b false pdfPath ++ tryChainEvents render pdfPath bs

/-- Trace of `main` from source lines 592-616: create both output
parent directories, write the HTML page, then run the backend chain. -/
def mainFsTrace (htmlParent pdfParent htmlPath pdfPath htmlPage : String)
    (render : Backend → Bool) : List TraceEvent :=
  [TraceEvent.mkdirParents htmlParent, TraceEvent.mkdirParents pdfParent,
    TraceEvent.writeFile htmlPath htmlPage] ++
    tryChainEvents render pdfPath backendOrder

/-- The built-in default page template returned by `_load_template` when
no override file exists (source lines 241-255), transcribed verbatim. -/
def defaultTemplate : String :=
  "<!doctype html>\n<html lang=\x27en\x27>\n<head>\n  <meta charset=\x27utf-8\x27 />\n  <meta name=\x27viewport\x27 content=\x27width=device-width, initial-scale=1\x27 />\n  <title>\x7b\x7bTITLE\x7d\x7d</title>\n  <style>\x7b\x7bCSS\x7d\x7d</style>\n</head>\n<body>\n  <main class=\x27report\x27>\n    \x7b\x7bCONTENT\x7d\x7d\n  </main>\n</body>\n</html>\n"

/-- The built-in default CSS returned by `_load_css` when no override
file exists. -/
def defaultCss : String :=
  "body \x7b font-family: Georgia, serif; margin: 24px; \x7d"

/-- The `TITLE` placeholder token. -/
def tokTITLE : List Char := "\x7b\x7bTITLE\x7d\x7d".data

/-- The `CSS` placeholder token. -/
def tokCSS : List Char := "\x7b\x7bCSS\x7d\x7d".data

/-- The `GENERATED_AT` placeholder token. -/
def tokGENERATED_AT : List Char := "\x7b\x7bGENERATED_AT\x7d\x7d".data

/-- The `CONTENT` placeholder token. -/
def tokCONTENT : List Char := "\x7b\x7bCONTENT\x7d\x7d".data

/-- `_render_html`: four `str.replace` passes over the template, in the
source's order TITLE, CSS, GENERATED_AT, CONTENT; title and timestamp
are HTML-escaped, CSS and body are inserted as given.  The timestamp
(`datetime.now().strftime(...)` in the source) is an explicit input of
the model. -/
def render_html (title body_html template css generated_at : String) : String :=
  String.mk
    (replaceAll tokCONTENT body_html.data
      (replaceAll tokGENERATED_AT (html_escape generated_at.data)
        (replaceAll tokCSS css.data
          (replaceAll tokTITLE (html_escape title.data) template.data))))

/-- Position of each backend in the fixed chain order of `main`. -/
def orderIdx : Backend → Nat
  | .weasyprint => 0
  | .wkhtmltopdf => 1
  | .xhtml2pdf => 2
  | .reportlab => 3

/-- C1: The backend chain in `main` tries weasyprint, wkhtmltopdf,
xhtml2pdf, reportlab in this fixed order; a backend whose capability is
absent or whose render errors (both are a `False` return of its helper)
makes the chain continue; the first success stops the chain, is reported
as the producer, and the process exits 0; when every backend fails the
run ends in the terminal `SystemExit` whose message names all four
attempted backends. -/
theorem C1_backend_chain (render : Backend → Bool) (pdfPath : String) :
    (mainPdfPhase render pdfPath = MainResult.failure failureMessage ↔
      ∀ b ∈ backendOrder, render b = false) ∧
    (∀ b, render b = true →
      ∃ bF, mainPdfPhase render pdfPath =
          MainResult.success bF 0 (successMessage bF pdfPath) ∧
        render bF = true ∧
        ∀ b2, render b2 = true → orderIdx bF ≤ orderIdx b2) ∧
    (∀ b ∈ backendOrder,
      containsSub (backendName b).data failureMessage.data = true) := by
  refine ⟨?_, ?_, by decide⟩
  · cases hw : render .weasyprint <;> cases hk : render .wkhtmltopdf <;>
      cases hx : render .xhtml2pdf <;> cases hr : render .reportlab <;>
      simp [mainPdfPhase, backendOrder, hw, hk, hx, hr]
  · intro b hb
    cases hw : render .weasyprint
    case true =>
      exact ⟨.weasyprint, by simp [mainPdfPhase, hw], hw,
        fun b2 _ => by cases b2 <;> simp [orderIdx]⟩
    case false =>
    cases hk : render .wkhtmltopdf
    case true =>
      exact ⟨.wkhtmltopdf, by simp [mainPdfPhase, hw, hk], hk,
        fun b2 h2 => by cases b2 <;> simp_all [orderIdx]⟩
    case false =>
    cases hx : render .xhtml2pdf
    case true =>
      exact ⟨.xhtml2pdf, by simp [mainPdfPhase, hw, hk, hx], hx,
        fun b2 h2 => by cases b2 <;> simp_all [orderIdx]⟩
    case false =>
    cases hr : render .reportlab
    case true =>
      exact ⟨.reportlab, by simp [mainPdfPhase, hw, hk, hx, hr], hr,
        fun b2 h2 => by cases b2 <;> simp_all [orderIdx]⟩
    case false =>
      exfalso
      cases b <;> simp_all

/-- Witness for C1: with the first two backends unavailable and
xhtml2pdf succeeding, the chain reports xhtml2pdf as the producer with
exit code 0. -/
theorem C1_backend_chain_witness :
    mainPdfPhase (fun b => b == Backend.xhtml2pdf) "out.pdf" =
      MainResult.success Backend.xhtml2pdf 0
        (successMessage Backend.xhtml2pdf "out.pdf") := by
  obtain ⟨bF, h1, h2, _⟩ :=
    (C1_backend_chain (fun b => b == Backend.xhtml2pdf) "out.pdf").2.1
      Backend.xhtml2pdf (by decide)
  cases bF
  case xhtml2pdf => exact h1
  all_goals exact absurd h2 (by decide)

/-- Every event the backend chain produces is a backend invocation or a
write of the PDF path. -/
theorem tryChainEvents_mem (render : Backend → Bool) (pdfPath : String) :
    ∀ bs, ∀ e ∈ tryChainEvents render pdfPath bs,
      (∃ b, e = TraceEvent.invokeBackend b) ∨
      (∃ c, e = TraceEvent.writeFile pdfPath c) := by
  intro bs
  induction bs with
  | nil => simp [tryChainEvents]
  | cons b bs ih =>
    intro e he
    rw [tryChainEvents] at he
    by_cases hb : render b = true
    · rw [if_pos hb] at he
      simp [backendAttemptEvents] at he
      rcases he with h | h
      · exact Or.inl ⟨b, h⟩
      · exact Or.inr ⟨_, h⟩
    · rw [if_neg hb] at he
      simp [backendAttemptEvents] at he
      rcases he with h | h
      · exact Or.inl ⟨b, h⟩
      · exact ih e h

/-- C2: the HTML page is written to the caller-supplied output path
before any PDF backend is invoked, no later event rewrites or deletes
it (for distinct caller-supplied output paths), `main` never deletes
any file, and the terminal failure message still reports the HTML
output as generated successfully. -/
theorem C2_html_written_first (htmlParent pdfParent htmlPath pdfPath htmlPage : String)
    (render : Backend → Bool) (hne : htmlPath ≠ pdfPath) :
    (∃ tail, mainFsTrace htmlParent pdfParent htmlPath pdfPath htmlPage render =
        [TraceEvent.mkdirParents htmlParent, TraceEvent.mkdirParents pdfParent,
          TraceEvent.writeFile htmlPath htmlPage] ++ tail ∧
      ∀ e ∈ tail, (∀ c, e ≠ TraceEvent.writeFile htmlPath c) ∧
        e ≠ TraceEvent.deleteFile htmlPath) ∧
    (∀ e ∈ mainFsTrace htmlParent pdfParent htmlPath pdfPath htmlPage render,
      ∀ p, e ≠ TraceEvent.deleteFile p) ∧
    containsSub "HTML output was generated successfully.".data
      failureMessage.data = true := by
  refine ⟨⟨tryChainEvents render pdfPath backendOrder, rfl, ?_⟩, ?_, by decide⟩
  · intro e he
    rcases tryChainEvents_mem render pdfPath backendOrder e he with ⟨b, rfl⟩ | ⟨c, rfl⟩
    · simp
    · refine ⟨fun c2 h => hne ?_, by simp⟩
      injection h with h1 h2
      exact h1.symm
  · intro e he p
    simp [mainFsTrace] at he
    rcases he with h | h | h | h
    · simp [h]
    · simp [h]
    · simp [h]
    · rcases tryChainEvents_mem render pdfPath backendOrder e h with ⟨b, rfl⟩ | ⟨c, rfl⟩ <;> simp

/-- Witness for C2 at concrete paths with every backend failing. -/
theorem C2_html_written_first_witness :
    (∃ tail, mainFsTrace "out" "out" "r.html" "r.pdf" "<p>x</p>" (fun _ => false) =
        [TraceEvent.mkdirParents "out", TraceEvent.mkdirParents "out",
          TraceEvent.writeFile "r.html" "<p>x</p>"] ++ tail ∧
      ∀ e ∈ tail, (∀ c, e ≠ TraceEvent.writeFile "r.html" c) ∧
        e ≠ TraceEvent.deleteFile "r.html") ∧
    (∀ e ∈ mainFsTrace "out" "out" "r.html" "r.pdf" "<p>x</p>" (fun _ => false),
      ∀ p, e ≠ TraceEvent.deleteFile p) ∧
    containsSub "HTML output was generated successfully.".data
      failureMessage.data = true :=
  C2_html_written_first "out" "out" "r.html" "r.pdf" "<p>x</p>" (fun _ => false)
    (by decide)

/-- C5 counterexample: `####### T` (seven hashes, space, text) does not
become a heading at all: the HTML fallback renders it as a literal
paragraph containing no heading element, and the reportlab path makes a
body-style paragraph, because the regex requires whitespace after at
most six `#` and the seventh character is `#`. -/
theorem C5_cex_seven_hashes :
    convert_markdown_fallback "####### T" = .ok "<p>####### T</p>" ∧
    containsSub "<h".data "<p>####### T</p>".data = false ∧
    build_story "####### T" =
      .ok [Flowable.para "####### T".data .bodyStyle] :=
  ⟨rfl, by decide, rfl⟩

/-- C5 amended: `# T` yields a level-1 heading and `###### T` a level-6
heading in both paths; `####### T` fails the heading pattern (the
clamp `min(level, 6)` is unreachable) and degrades to a paragraph. -/
theorem C5_heading_levels :
    convert_markdown_fallback "# T" = .ok "<h1>T</h1>" ∧
    convert_markdown_fallback "###### T" = .ok "<h6>T</h6>" ∧
    convert_markdown_fallback "####### T" = .ok "<p>####### T</p>" ∧
    build_story "# T" = .ok [Flowable.para "T".data .titleStyle] ∧
    build_story "###### T" = .ok [Flowable.para "T".data .h3Style] ∧
    build_story "####### T" = .ok [Flowable.para "####### T".data .bodyStyle] :=
  ⟨rfl, rfl, rfl, rfl, rfl, rfl⟩

/-- C6 counterexample: `----` (four dashes) is not rendered as a
thematic break: the code compares the stripped line against the literal
set of exactly `---`, `***`, `___`, so four-or-more repetitions become
paragraphs. -/
theorem C6_cex_four_dashes :
    convert_markdown_fallback "----" = .ok "<p>----</p>" ∧
    convert_markdown_fallback "*****" = .ok "<p>*****</p>" ∧
    containsSub "<hr/>".data "<p>----</p>".data = false :=
  ⟨rfl, rfl, by decide⟩

/-- C6 amended: only a line whose trimmed form is exactly `---`, `***`
or `___` parses to a thematic break rendered as an `hr` element in the
HTML target; longer repetitions degrade to paragraphs. -/
theorem C6_thematic_break :
    convert_markdown_fallback "---" = .ok "<hr/>" ∧
    convert_markdown_fallback "***" = .ok "<hr/>" ∧
    convert_markdown_fallback "___" = .ok "<hr/>" ∧
    convert_markdown_fallback " --- " = .ok "<hr/>" ∧
    convert_markdown_fallback "----" = .ok "<p>----</p>" :=
  ⟨rfl, rfl, rfl, rfl, rfl⟩

/-- C7: the empty input yields an empty line list, hence an empty HTML
fragment; the reportlab path replaces the empty story with exactly one
placeholder paragraph reading "No content available.". -/
theorem C7_empty_input :
    convert_markdown_fallback "" = .ok "" ∧
    build_story "" = .ok [Flowable.para "No content available.".data .bodyStyle] :=
  ⟨rfl, rfl⟩

/-- Stripping is idempotent: `pstrip` is a right-drop of whitespace
after a left-drop, and both drops are idempotent with the remaining
boundary characters non-whitespace. -/
theorem pstrip_idem (l : List Char) : pstrip (pstrip l) = pstrip l := by
  have key : ∀ m : List Char,
      List.dropWhile isPyWs (List.rdropWhile isPyWs (List.dropWhile isPyWs m)) =
        List.rdropWhile isPyWs (List.dropWhile isPyWs m) := by
    intro m
    rw [List.dropWhile_eq_self_iff]
    intro hl
    have hpre := List.rdropWhile_prefix isPyWs (List.dropWhile isPyWs m)
    have hlen : 0 < (List.dropWhile isPyWs m).length :=
      lt_of_lt_of_le hl hpre.length_le
    have hget := List.IsPrefix.getElem hpre hl
    have hz := List.dropWhile_get_zero_not isPyWs m hlen
    simp only [List.get_eq_getElem] at hz ⊢
    rw [hget]
    exact hz
  calc pstrip (pstrip l)
      = List.rdropWhile isPyWs
          (List.dropWhile isPyWs (List.rdropWhile isPyWs (List.dropWhile isPyWs l))) := rfl
    _ = List.rdropWhile isPyWs (List.rdropWhile isPyWs (List.dropWhile isPyWs l)) := by
        rw [key]
    _ = pstrip l := List.rdropWhile_idempotent _ _

/-- A line whose stripped form starts with a pipe has a pipe as its
first stripped character. -/
theorem startsPipe_cons {l : List Char} (h : startsPipe l = true) :
    ∃ t, pstrip l = '|' :: t := by
  unfold startsPipe at h
  cases hs : pstrip l with
  | nil => rw [hs] at h; simp [List.isPrefixOf] at h
  | cons c t =>
    rw [hs] at h
    simp [List.isPrefixOf] at h
    exact ⟨t, by rw [← h]⟩

/-- Splitting on a separator always yields at least one piece. -/
theorem splitCharGo_ne_nil (sep : Char) (cur : List Char) :
    ∀ l, splitCharGo sep cur l ≠ [] := by
  intro l
  induction l generalizing cur with
  | nil => simp [splitCharGo]
  | cons c rest ih =>
    rw [splitCharGo]
    by_cases h : (c == sep) = true
    · simp [h]
    · simp only [h]
      simp only [Bool.false_eq_true, if_false]
      exact ih _

/-- A table row always splits into at least one cell, so the header of
a recognized table is never empty. -/
theorem split_table_row_ne_nil (line : List Char) : split_table_row line ≠ [] := by
  unfold split_table_row splitCharL
  intro h
  exact splitCharGo_ne_nil '|' [] _ (List.map_eq_nil_iff.mp h)

/-- Normalization always produces exactly the header's cell count:
short rows are right-padded with empty cells, long rows truncated. -/
theorem normalizeRow_length (header row : List (List Char)) :
    (normalizeRow header row).length = header.length := by
  simp [normalizeRow]
  omega

/-- `is_table_separator` only looks at the stripped line. -/
theorem is_table_separator_pstrip (l : List Char) :
    is_table_separator (pstrip l) = is_table_separator l := by
  unfold is_table_separator
  rw [pstrip_idem]

/-- Joining a nonempty first piece yields a nonempty string. -/
theorem joinWith_head_ne_nil (sep x : List Char) (xs : List (List Char))
    (hx : x ≠ []) : joinWith sep (x :: xs) ≠ [] := by
  cases xs with
  | nil => simpa [joinWith] using hx
  | cons y ys => simp [joinWith, List.append_eq_nil, hx]

/-- C3 amended: an input that is a well-formed pipe table region (a
pipe-led header line, a valid separator line, and at least one pipe-led
data row) parses to exactly one block in the HTML fallback, namely the
rendered table, and in both rendering paths every row is normalized to
exactly the header's cell count. -/
theorem C3_table_normalization (l0 l1 : List Char) (rows : List (List Char))
    (h0 : startsPipe l0 = true) (h1 : startsPipe l1 = true)
    (hsep : is_table_separator l1 = true)
    (hne : rows ≠ []) (hrows : ∀ r ∈ rows, startsPipe r = true) :
    (∃ th, render_table_html (l0 :: l1 :: rows) = Except.ok th ∧ th ≠ [] ∧
      convert_markdown_fallback_lines (l0 :: l1 :: rows) = Except.ok [th]) ∧
    (∀ row, (normalizeRow (split_table_row l0) row).length =
      (split_table_row l0).length) ∧
    (∃ data, buildStoryGo (l0 :: l1 :: rows).length (l0 :: l1 :: rows) =
        Except.ok [Flowable.tableF data, Flowable.spacer 1 8] ∧
      data.length = rows.length + 1 ∧
      ∀ r ∈ data, r.length = (split_table_row l0).length) := by
  obtain ⟨t0, ht0⟩ := startsPipe_cons h0
  have hne0 : (pstrip l0).isEmpty = false := by rw [ht0]; rfl
  have hfence : ("```".data.isPrefixOf (pstrip l0)) = false := by rw [ht0]; rfl
  have hlk : looks_like_table (l0 :: l1 :: rows) = true := by
    simp [looks_like_table, h0, h1, is_table_separator_pstrip, hsep]
  have hall : ∀ x ∈ l0 :: l1 :: rows, startsPipe x = true := by
    intro x hx
    simp only [List.mem_cons] at hx
    rcases hx with rfl | rfl | hx
    · exact h0
    · exact h1
    · exact hrows x hx
  have htake : (l0 :: l1 :: rows).takeWhile startsPipe = l0 :: l1 :: rows :=
    List.takeWhile_eq_self_iff.mpr hall
  have hdrop : (l0 :: l1 :: rows).dropWhile startsPipe = [] :=
    List.dropWhile_eq_nil_iff.mpr hall
  have hh : (split_table_row l0).isEmpty = false := by
    cases hsp : split_table_row l0 with
    | nil => exact absurd hsp (split_table_row_ne_nil l0)
    | cons a b => rfl
  have hlen : ¬ ((l0 :: l1 :: rows).length < 2) := by simp
  have hparts : ∃ tailP,
      render_table_html_parts (l0 :: l1 :: rows) = .ok ("<table>".data :: tailP) := by
    unfold render_table_html_parts
    rw [if_neg hlen]
    simp only [List.get?_cons_succ, List.get?_cons_zero, hsep, Bool.not_true,
      Bool.false_eq_true, if_false, hh, List.cons_append, List.nil_append]
    exact ⟨_, rfl⟩
  obtain ⟨tailP, hpartsEq⟩ := hparts
  have hth : render_table_html (l0 :: l1 :: rows) =
      .ok (joinWith [cLf] ("<table>".data :: tailP)) := by
    unfold render_table_html
    rw [hpartsEq]
    rfl
  have hthne : joinWith [cLf] ("<table>".data :: tailP) ≠ [] :=
    joinWith_head_ne_nil _ _ _ (by decide)
  have hthne' : (joinWith [cLf] ("<table>".data :: tailP)).isEmpty = false := by
    cases hmm : joinWith [cLf] ("<table>".data :: tailP) with
    | nil => exact absurd hmm hthne
    | cons a b => rfl
  refine ⟨⟨joinWith [cLf] ("<table>".data :: tailP), hth, hthne, ?_⟩,
    fun row => normalizeRow_length _ _, ?_⟩
  · unfold convert_markdown_fallback_lines
    have hlen2 : (l0 :: l1 :: rows).length = rows.length + 1 + 1 := by simp
    rw [hlen2, convertFallbackGo]
    simp only [hne0, Bool.false_eq_true, if_false, hfence, hlk, if_true, htake, hdrop]
    rw [hth]
    simp only [hthne', Bool.false_eq_true, if_false]
    rw [convertFallbackGo]
    rfl
  · have hlen2 : (l0 :: l1 :: rows).length = rows.length + 1 + 1 := by simp
    rw [hlen2, buildStoryGo]
    simp only [hne0, Bool.false_eq_true, if_false, hfence, hlk, if_true, htake, hdrop]
    simp only [List.get?_cons_zero]
    rw [buildStoryGo]
    simp only [hh, Bool.false_eq_true, if_false, Except.map]
    refine ⟨_, rfl, ?_, ?_⟩
    · simp
    · intro r hr
      simp only [List.drop, List.mem_cons, List.mem_map] at hr
      rcases hr with rfl | ⟨row, _, rfl⟩
      · simp
      · simp [normalizeRow_length]

/-- Whether a line list contains a well-formed pipe table region in the
claim's sense: some position with a pipe-led line, a following valid
separator line, and at least one following pipe-led data row. -/
def containsWellFormedTable : List (List Char) → Bool
  | a :: b :: c :: rest =>
    (startsPipe a && startsPipe b && is_table_separator (pstrip b) && startsPipe c) ||
    containsWellFormedTable (b :: c :: rest)
  | _ => false

/-- C3 counterexample: this input contains a well-formed pipe table
(header, valid separator, one data row), but because the table sits in
a fenced code block the parser yields zero table blocks, not exactly
one: the whole output is a single code block containing no table
markup. -/
theorem C3_cex_fenced_table :
    containsWellFormedTable
      (splitlinesL "```\n| A | B |\n| --- |\n| 1 |\n```".data) = true ∧
    convert_markdown_fallback "```\n| A | B |\n| --- |\n| 1 |\n```" =
      .ok "<pre><code>| A | B |\n| --- |\n| 1 |</code></pre>" ∧
    countOcc "<table>".data
      "<pre><code>| A | B |\n| --- |\n| 1 |</code></pre>".data = 0 :=
  ⟨by decide, rfl, by decide⟩

/-- Witness for C3 at a concrete two-column table with one short data
row. -/
theorem C3_table_normalization_witness :
    (∃ th, render_table_html ["| A | B |".data, "| --- |".data, "| 1 |".data] =
        Except.ok th ∧ th ≠ [] ∧
      convert_markdown_fallback_lines
        ["| A | B |".data, "| --- |".data, "| 1 |".data] = Except.ok [th]) ∧
    (∀ row, (normalizeRow (split_table_row "| A | B |".data) row).length =
      (split_table_row "| A | B |".data).length) ∧
    (∃ data, buildStoryGo
        (["| A | B |".data, "| --- |".data, "| 1 |".data] : List (List Char)).length
        ["| A | B |".data, "| --- |".data, "| 1 |".data] =
        Except.ok [Flowable.tableF data, Flowable.spacer 1 8] ∧
      data.length = ["| 1 |".data].length + 1 ∧
      ∀ r ∈ data, r.length = (split_table_row "| A | B |".data).length) :=
  C3_table_normalization "| A | B |".data "| --- |".data ["| 1 |".data]
    (by decide) (by decide) (by decide) (by decide)
    (by intro r hr; simp at hr; rw [hr]; decide)

/-- The table renderer never reaches its index-error branches: both
indexings are protected by the length guard evaluated first. -/
theorem render_table_html_parts_ok (tl : List (List Char)) :
    ∃ out, render_table_html_parts tl = .ok out := by
  unfold render_table_html_parts
  split
  · exact ⟨_, rfl⟩
  · next hlen =>
    cases hg : tl.get? 1 with
    | none =>
      exfalso
      rw [List.get?_eq_none] at hg
      omega
    | some sep =>
      simp only [hg]
      split
      · exact ⟨_, rfl⟩
      · cases hg0 : tl.get? 0 with
        | none =>
          exfalso
          rw [List.get?_eq_none] at hg0
          omega
        | some hd =>
          simp only [hg0]
          split
          · exact ⟨_, rfl⟩
          · exact ⟨_, rfl⟩

/-- `_render_table_html` never raises. -/
theorem render_table_html_ok (tl : List (List Char)) :
    ∃ out, render_table_html tl = .ok out := by
  obtain ⟨o, ho⟩ := render_table_html_parts_ok tl
  exact ⟨_, by unfold render_table_html; rw [ho]; rfl⟩

/-- The fallback conversion loop never raises, for every fuel, line
list and list mode. -/
theorem convertFallbackGo_ok :
    ∀ fuel lines mode, ∃ out, convertFallbackGo fuel lines mode = .ok out := by
  intro fuel
  induction fuel with
  | zero =>
    intro lines mode
    cases lines with
    | nil => exact ⟨_, rfl⟩
    | cons l rest => exact ⟨[], rfl⟩
  | succ fuel ih =>
    intro lines mode
    cases lines with
    | nil => exact ⟨_, rfl⟩
    | cons line rest =>
      have hmap : ∀ (A : List (List Char)) (B : Option ListMode)
          (f : List (List Char) → List (List Char)),
          ∃ out, (convertFallbackGo fuel A B).map f = .ok out := by
        intro A B f
        obtain ⟨o, ho⟩ := ih A B
        exact ⟨f o, by rw [ho]; rfl⟩
      rw [convertFallbackGo]
      split
      · exact hmap _ _ _
      · split
        · exact hmap _ _ _
        · split
          · dsimp only
            split
            · next e heq =>
              obtain ⟨o, ho⟩ := render_table_html_ok
                ((line :: rest).takeWhile startsPipe)
              rw [ho] at heq
              exact absurd heq (by simp)
            · exact hmap _ _ _
          · split
            · exact hmap _ _ _
            · split
              · exact hmap _ _ _
              · split
                · exact hmap _ _ _
                · split
                  · exact hmap _ _ _
                  · split
                    · exact hmap _ _ _
                    · exact hmap _ _ _

/-- C4: the fallback markdown-to-HTML conversion is total: for every
input string it returns an HTML string and never reaches an error, and
malformed constructs degrade to safe blocks: an unterminated code fence
becomes a code block holding the rest of the input, a pipe line whose
next line is not a valid separator becomes a literal paragraph, and a
stray emphasis marker stays literal inside a paragraph. -/
theorem C4_fallback_never_raises :
    (∀ s : String, ∃ out, convert_markdown_fallback s = Except.ok out) ∧
    convert_markdown_fallback "```\nunclosed fence" =
      .ok "<pre><code>unclosed fence</code></pre>" ∧
    convert_markdown_fallback "| a | b\nnot a separator" =
      .ok "<p>| a | b not a separator</p>" ∧
    convert_markdown_fallback "*stray" = .ok "<p>*stray</p>" := by
  refine ⟨?_, rfl, rfl, rfl⟩
  intro s
  obtain ⟨o, ho⟩ :=
    convertFallbackGo_ok (splitlinesL s.data).length (splitlinesL s.data) none
  exact ⟨_, by
    unfold convert_markdown_fallback convert_markdown_fallback_lines
    rw [ho]
    rfl⟩

/-- A character with no role in any inline-formatter pass: not
escape-sensitive, and not a code/bold/italic/link trigger. -/
def plainChar (c : Char) : Bool :=
  !(c == '&') && !(c == '<') && !(c == '>') && !(c == cQuote) && !(c == cApos) &&
  !(c == cBacktick) && !(c == '*') && !(c == '[')

/-- Escaping a plain character is the identity. -/
theorem html_escape_char_plain {c : Char} (h : plainChar c = true) :
    html_escape_char c = [c] := by
  simp only [plainChar, Bool.and_eq_true, Bool.not_eq_true'] at h
  obtain ⟨⟨⟨⟨⟨⟨⟨h1, h2⟩, h3⟩, h4⟩, h5⟩, h6⟩, h7⟩, h8⟩ := h
  simp [html_escape_char, h1, h2, h3, h4, h5, h6, h7, h8]

/-- Escaping text of plain characters is the identity. -/
theorem html_escape_plain {l : List Char} (h : ∀ c ∈ l, plainChar c = true) :
    html_escape l = l := by
  induction l with
  | nil => rfl
  | cons c rest ih =>
    show html_escape_char c ++ html_escape rest = c :: rest
    rw [html_escape_char_plain (h c (by simp)), ih (fun x hx => h x (by simp [hx]))]
    rfl

/-- The link pass is the identity on bracket-free text. -/
theorem subLinkGo_plain (mk : List Char → List Char → List Char) :
    ∀ fuel (l : List Char), (∀ c ∈ l, (c == '[') = false) →
      subLinkGo mk fuel l = l := by
  intro fuel
  induction fuel with
  | zero => intro l _; rfl
  | succ fuel ih =>
    intro l h
    cases l with
    | nil => rfl
    | cons c rest =>
      rw [subLinkGo]
      simp only [h c (by simp), Bool.false_eq_true, if_false]
      rw [ih rest (fun x hx => h x (by simp [hx]))]

/-- The code pass is the identity on backtick-free text. -/
theorem subCodeGo_plain (pre post : List Char) :
    ∀ fuel (l : List Char), (∀ c ∈ l, (c == cBacktick) = false) →
      subCodeGo pre post fuel l = l := by
  intro fuel
  induction fuel with
  | zero => intro l _; rfl
  | succ fuel ih =>
    intro l h
    cases l with
    | nil => rfl
    | cons c rest =>
      rw [subCodeGo]
      simp only [h c (by simp), Bool.false_eq_true, if_false]
      rw [ih rest (fun x hx => h x (by simp [hx]))]

/-- The bold pass is the identity on star-free text. -/
theorem subBoldGo_plain (pre post : List Char) :
    ∀ fuel (l : List Char), (∀ c ∈ l, (c == '*') = false) →
      subBoldGo pre post fuel l = l := by
  intro fuel
  induction fuel with
  | zero => intro l _; rfl
  | succ fuel ih =>
    intro l h
    cases l with
    | nil => rfl
    | cons c rest =>
      rw [subBoldGo]
      simp only [h c (by simp), Bool.false_and, Bool.false_eq_true, if_false]
      rw [ih rest (fun x hx => h x (by simp [hx]))]

/-- The italic pass is the identity on star-free text, whatever the
lookbehind state. -/
theorem subItalicGo_plain (pre post : List Char) :
    ∀ fuel (prevStar : Bool) (l : List Char), (∀ c ∈ l, (c == '*') = false) →
      subItalicGo pre post fuel prevStar l = l := by
  intro fuel
  induction fuel with
  | zero => intro prevStar l _; rfl
  | succ fuel ih =>
    intro prevStar l h
    cases l with
    | nil => rfl
    | cons c rest =>
      rw [subItalicGo]
      simp only [h c (by simp), Bool.false_and, Bool.false_eq_true, if_false]
      rw [ih _ rest (fun x hx => h x (by simp [hx]))]

/-- On plain text both inline formatters are the identity. -/
theorem inline_plain_id {l : List Char} (h : ∀ c ∈ l, plainChar c = true) :
    inline_markdown_to_html l = l ∧ inline_markdown_to_reportlab l = l := by
  have hbr : ∀ c ∈ l, (c == '[') = false := by
    intro c hc
    have := h c hc
    simp only [plainChar, Bool.and_eq_true, Bool.not_eq_true'] at this
    exact this.2
  have hbt : ∀ c ∈ l, (c == cBacktick) = false := by
    intro c hc
    have := h c hc
    simp only [plainChar, Bool.and_eq_true, Bool.not_eq_true'] at this
    exact this.1.1.2
  have hst : ∀ c ∈ l, (c == '*') = false := by
    intro c hc
    have := h c hc
    simp only [plainChar, Bool.and_eq_true, Bool.not_eq_true'] at this
    exact this.1.2
  constructor
  · unfold inline_markdown_to_html subItalic subBold subCode subLink
    rw [html_escape_plain h, subLinkGo_plain _ _ _ hbr, subCodeGo_plain _ _ _ _ hbt,
      subBoldGo_plain _ _ _ _ hst, subItalicGo_plain _ _ _ _ _ hst]
  · unfold inline_markdown_to_reportlab subItalic subBold subCode subLink
    rw [html_escape_plain h, subLinkGo_plain _ _ _ hbr, subCodeGo_plain _ _ _ _ hbt,
      subBoldGo_plain _ _ _ _ hst, subItalicGo_plain _ _ _ _ _ hst]

/-- C8 counterexample: the input `**b**` is free of escape-sensitive
characters (escaping is the identity on each of its characters), yet the
inline formatter is not idempotent on it: the second pass escapes the
markup produced by the first. -/
theorem C8_cex_bold_not_idempotent :
    (∀ c ∈ "**b**".data, html_escape_char c = [c]) ∧
    inline_markdown_to_html "**b**".data = "<strong>b</strong>".data ∧
    inline_markdown_to_html (inline_markdown_to_html "**b**".data) =
      "&lt;strong&gt;b&lt;/strong&gt;".data ∧
    inline_markdown_to_html (inline_markdown_to_html "**b**".data) ≠
      inline_markdown_to_html "**b**".data ∧
    inline_markdown_to_reportlab (inline_markdown_to_reportlab "**b**".data) ≠
      inline_markdown_to_reportlab "**b**".data :=
  ⟨by decide, by decide, by decide, by decide, by decide⟩

/-- C8 amended: both inline formatters are idempotent on text free of
escape-sensitive characters and of inline-markup trigger characters
(backtick, star, opening bracket); on such text they are the
identity, so a second application changes nothing. -/
theorem C8_plain_text_idempotent (l : List Char)
    (h : ∀ c ∈ l, plainChar c = true) :
    inline_markdown_to_html l = l ∧
    inline_markdown_to_html (inline_markdown_to_html l) =
      inline_markdown_to_html l ∧
    inline_markdown_to_reportlab l = l ∧
    inline_markdown_to_reportlab (inline_markdown_to_reportlab l) =
      inline_markdown_to_reportlab l := by
  obtain ⟨h1, h2⟩ := inline_plain_id h
  exact ⟨h1, by rw [h1, h1], h2, by rw [h2, h2]⟩

/-- Witness for C8 on a concrete plain text. -/
theorem C8_plain_text_idempotent_witness :
    inline_markdown_to_html "plain text 123.".data = "plain text 123.".data ∧
    inline_markdown_to_html (inline_markdown_to_html "plain text 123.".data) =
      inline_markdown_to_html "plain text 123.".data ∧
    inline_markdown_to_reportlab "plain text 123.".data = "plain text 123.".data ∧
    inline_markdown_to_reportlab
        (inline_markdown_to_reportlab "plain text 123.".data) =
      inline_markdown_to_reportlab "plain text 123.".data :=
  C8_plain_text_idempotent "plain text 123.".data (by decide)

/-- A replace pass over text with no occurrence of the pattern is the
identity, whatever the replacement. -/
theorem replaceAllGo_no_occ (pat rep : List Char) :
    ∀ fuel (l : List Char), containsSub pat l = false →
      replaceAllGo pat rep fuel l = l := by
  intro fuel
  induction fuel with
  | zero => intro l _; rfl
  | succ fuel ih =>
    intro l h
    cases l with
    | nil => rfl
    | cons c rest =>
      rw [replaceAllGo]
      rw [containsSub] at h
      simp only [Bool.or_eq_false_iff] at h
      simp only [h.1, Bool.false_and, Bool.false_eq_true, if_false]
      rw [ih rest h.2]

/-- `str.replace` with an absent pattern is the identity. -/
theorem replaceAll_no_occ (pat rep l : List Char)
    (h : containsSub pat l = false) : replaceAll pat rep l = l :=
  replaceAllGo_no_occ pat rep l.length l h

set_option maxRecDepth 40000 in
/-- C9 counterexample: the built-in default template does not contain
all four placeholder tokens: `GENERATED_AT` is absent from it, while
the other three are present. -/
theorem C9_cex_default_template_tokens :
    containsSub tokGENERATED_AT defaultTemplate.data = false ∧
    containsSub tokTITLE defaultTemplate.data = true ∧
    containsSub tokCSS defaultTemplate.data = true ∧
    containsSub tokCONTENT defaultTemplate.data = true := by
  refine ⟨by decide, by decide, by decide, by decide⟩

set_option maxRecDepth 100000 in
/-- C9 amended: page assembly substitutes every occurrence of each
placeholder token (in the order TITLE, CSS, GENERATED_AT, CONTENT); the
default template holds TITLE, CSS and CONTENT exactly once each — so
each of those is replaced exactly once there — and holds GENERATED_AT
zero times, so that substitution is a no-op on the default template. -/
theorem C9_template_substitution :
    countOcc tokTITLE defaultTemplate.data = 1 ∧
    countOcc tokCSS defaultTemplate.data = 1 ∧
    countOcc tokCONTENT defaultTemplate.data = 1 ∧
    countOcc tokGENERATED_AT defaultTemplate.data = 0 ∧
    render_html "My Title" "<p>Hi</p>" defaultTemplate "CSSBLOB" "2025-01-01 00:00" =
      "<!doctype html>\n<html lang=\x27en\x27>\n<head>\n  <meta charset=\x27utf-8\x27 />\n  <meta name=\x27viewport\x27 content=\x27width=device-width, initial-scale=1\x27 />\n  <title>My Title</title>\n  <style>CSSBLOB</style>\n</head>\n<body>\n  <main class=\x27report\x27>\n    <p>Hi</p>\n  </main>\n</body>\n</html>\n" := by
  refine ⟨by decide, by decide, by decide, by decide, by decide⟩

/-- C10 counterexample: rendering is not a pure function of markdown
text, title, template and CSS alone: with a template containing the
`GENERATED_AT` placeholder, two invocations with identical text, title,
template and CSS but different clock readings produce different output
strings. -/
theorem C10_cex_timestamp_dependence :
    render_html "t" "<p>b</p>" "\x7b\x7bGENERATED_AT\x7d\x7d" "c" "2025-01-01 10:00" =
      "2025-01-01 10:00" ∧
    render_html "t" "<p>b</p>" "\x7b\x7bGENERATED_AT\x7d\x7d" "c" "2025-01-02 11:30" =
      "2025-01-02 11:30" ∧
    render_html "t" "<p>b</p>" "\x7b\x7bGENERATED_AT\x7d\x7d" "c" "2025-01-01 10:00" ≠
      render_html "t" "<p>b</p>" "\x7b\x7bGENERATED_AT\x7d\x7d" "c" "2025-01-02 11:30" := by
  refine ⟨by decide, by decide, by decide⟩

set_option maxRecDepth 100000 in
/-- C10 amended: rendering is a pure function of text, title, template,
CSS and the timestamp read from the clock; with the built-in defaults
(whose template lacks `GENERATED_AT`) the page is independent of the
timestamp, and every event of `main`'s trace is a parent-directory
creation, a write of one of the two caller-supplied artifact paths, or
a backend invocation — never a deletion and never a write elsewhere. -/
theorem C10_purity (body t1 t2 : String)
    (htmlParent pdfParent htmlPath pdfPath htmlPage : String)
    (render : Backend → Bool) :
    render_html "Latest arXiv Summary" body defaultTemplate defaultCss t1 =
      render_html "Latest arXiv Summary" body defaultTemplate defaultCss t2 ∧
    (∀ e ∈ mainFsTrace htmlParent pdfParent htmlPath pdfPath htmlPage render,
      (∃ d, e = TraceEvent.mkdirParents d) ∨
      (∃ c, e = TraceEvent.writeFile htmlPath c) ∨
      (∃ c, e = TraceEvent.writeFile pdfPath c) ∨
      (∃ b, e = TraceEvent.invokeBackend b)) := by
  constructor
  · unfold render_html
    have hno : containsSub tokGENERATED_AT
        (replaceAll tokCSS defaultCss.data
          (replaceAll tokTITLE (html_escape "Latest arXiv Summary".data)
            defaultTemplate.data)) = false := by decide
    rw [replaceAll_no_occ _ _ _ hno, replaceAll_no_occ _ _ _ hno]
  · intro e he
    simp only [mainFsTrace, List.cons_append, List.nil_append, List.mem_cons] at he
    rcases he with rfl | rfl | rfl | h
    · exact Or.inl ⟨_, rfl⟩
    · exact Or.inl ⟨_, rfl⟩
    · exact Or.inr (Or.inl ⟨_, rfl⟩)
    · rcases tryChainEvents_mem render pdfPath backendOrder e h with ⟨b, rfl⟩ | ⟨c, rfl⟩
      · exact Or.inr (Or.inr (Or.inr ⟨_, rfl⟩))
      · exact Or.inr (Or.inr (Or.inl ⟨_, rfl⟩))

/-- Witness for C10 at concrete inputs: the default-template page is
the same for two different timestamps, and the trace facts hold for a
concrete all-failing chain. -/
theorem C10_purity_witness :
    render_html "Latest arXiv Summary" "<p>b</p>" defaultTemplate defaultCss
        "2025-01-01 10:00" =
      render_html "Latest arXiv Summary" "<p>b</p>" defaultTemplate defaultCss
        "2025-01-02 11:30" ∧
    (∀ e ∈ mainFsTrace "out" "out" "r.html" "r.pdf" "<page/>" (fun _ => false),
      (∃ d, e = TraceEvent.mkdirParents d) ∨
      (∃ c, e = TraceEvent.writeFile "r.html" c) ∨
      (∃ c, e = TraceEvent.writeFile "r.pdf" c) ∨
      (∃ b, e = TraceEvent.invokeBackend b)) :=
  C10_purity "<p>b</p>" "2025-01-01 10:00" "2025-01-02 11:30"
    "out" "out" "r.html" "r.pdf" "<page/>" (fun _ => false)
